import Mathlib

/-!
Shallow embedding of the emoji-explainer backend
(`src/project/*_service.py`).  The relational store (prisma models
Emoji, Explanation, User, Session) is modelled as lists of records plus
an id counter; each service function is translated as a pure function
from the store (and the ambient inputs it reads: current time, the
provider response, the fresh random token) to its response and the
updated store.  Python exceptions that escape a service are modelled by
the `PyResult` type.
-/

namespace EmojiExplainer

/-- Role enum from the prisma schema: ADMIN, USER, SERVICE_MANAGER. -/
inductive Role where
  | ADMIN
  | USER
  | SERVICE_MANAGER
deriving DecidableEq

/-- prisma model Emoji: { id, symbol }. -/
structure Emoji where
  id : Nat
  symbol : String
deriving DecidableEq

/-- prisma model Explanation: { id, content, emojiId, updatedBy }. -/
structure Explanation where
  id : Nat
  content : String
  emojiId : Nat
  updatedBy : Nat
deriving DecidableEq

/-- prisma model User: { id, username, password, email, role }. -/
structure User where
  id : Nat
  username : String
  password : String
  email : String
  role : Role
deriving DecidableEq

/-- prisma model Session: { id, userId, expiresAt }; `expiresAt` is a
timestamp in seconds. -/
structure Session where
  id : Nat
  userId : Nat
  expiresAt : Int
deriving DecidableEq

/-- The relational store: one list per prisma model, plus the id the
next created record receives (autoincrement). -/
structure Store where
  emojis : List Emoji
  explanations : List Explanation
  users : List User
  sessions : List Session
  nextId : Nat
deriving DecidableEq

/-- Result of a Python call: a normal return value, or an uncaught
exception identified by its class name. -/
inductive PyResult (α : Type) where
  | ok : α → PyResult α
  | exn : String → PyResult α
deriving DecidableEq

/-- prisma `Emoji.find_unique(where=\x7b"symbol": emoji\x7d)`. -/
def findEmoji (s : Store) (symbol : String) : Option Emoji :=
  s.emojis.find? (fun e => e.symbol == symbol)

/-- The `explanations` relation included with an Emoji record: all
Explanation rows whose `emojiId` is the emoji's id. -/
def explanationsOf (s : Store) (emojiId : Nat) : List Explanation :=
  s.explanations.filter (fun x => x.emojiId == emojiId)

/-- prisma `User.find_unique(where=\x7b"email": email\x7d)`. -/
def find_user_by_email (s : Store) (email : String) : Option User :=
  s.users.find? (fun u => u.email == email)

/-- prisma `User.find_unique(where=\x7b"id": id\x7d)`. -/
def find_user_by_id (s : Store) (uid : Nat) : Option User :=
  s.users.find? (fun u => u.id == uid)

/-- prisma `Session.find_unique(where=\x7b"id": session_id\x7d)`; the id
parsed from the token is a Python int, hence `Int`. -/
def find_session (s : Store) (sid : Int) : Option Session :=
  s.sessions.find? (fun x => ((x.id : Int)) == sid)

/-- Accumulator pass of the decimal parser: consumes digits, rejecting
any non-digit character. -/
def parseDigitsAux : List Char → Nat → Option Nat
  | [], acc => some acc
  | c :: cs, acc =>
    if c.isDigit then parseDigitsAux cs (acc * 10 + (c.toNat - 48)) else none

/-- A non-empty all-digit character list read as a decimal number. -/
def parseDigits : List Char → Option Nat
  | [] => none
  | c :: cs => parseDigitsAux (c :: cs) 0

/-- Surrounding whitespace removed from a character list. -/
def stripWs (cs : List Char) : List Char :=
  ((cs.dropWhile Char.isWhitespace).reverse.dropWhile Char.isWhitespace).reverse

/-- Python `int(token)` on a decimal string: surrounding whitespace is
stripped, an optional sign is accepted, then decimal digits; `none`
models the `ValueError` raised on any other input (digit-group
underscores are not modelled). -/
def pyInt (s : String) : Option Int :=
  match stripWs s.data with
  | '+' :: cs => (parseDigits cs).map (fun n => ((n : Int)))
  | '-' :: cs => (parseDigits cs).map (fun n => -((n : Int)))
  | cs => (parseDigits cs).map (fun n => ((n : Int)))

/- ===== explainEmoji_service.py ===== -/

/-- Response model `EmojiExplanationResponse` of
explainEmoji_service.py. -/
structure EmojiExplanationResponse where
  emoji : String
  explanation : String
deriving DecidableEq

/-- Outcome of `explainEmoji`: the response, the store after the call,
and how many times the Explanation Provider was called. -/
structure ExplainResult where
  response : EmojiExplanationResponse
  store : Store
  providerCalls : Nat
deriving DecidableEq

/-- `explainEmoji` of explainEmoji_service.py.  `provider` is the text
the Groq service returns for an emoji (the success case of
`fetch_explanation_from_groq`).  The store is read with
`find_unique(include=\x7b"explanations": True\x7d)`; on a hit with at
least one Explanation the first one's content is returned; otherwise
the provider is called, an Emoji row is created when none existed, and
one Explanation row (`updatedBy = 1`) is created. -/
def explainEmoji (provider : String → String) (s : Store) (emoji : String) :
    ExplainResult :=
  match findEmoji s emoji with
  | some emoji_record =>
    match explanationsOf s emoji_record.id with
    | e :: _ =>
      { response := ⟨emoji, e.content⟩, store := s, providerCalls := 0 }
    | [] =>
      let explanation_text := provider emoji
      { response := ⟨emoji, explanation_text⟩
        store := { s with
          explanations :=
            s.explanations ++ [⟨s.nextId, explanation_text, emoji_record.id, 1⟩]
          nextId := s.nextId + 1 }
        providerCalls := 1 }
  | none =>
    let explanation_text := provider emoji
    let newEmoji : Emoji := ⟨s.nextId, emoji⟩
    let s1 : Store := { s with emojis := s.emojis ++ [newEmoji], nextId := s.nextId + 1 }
    { response := ⟨emoji, explanation_text⟩
      store := { s1 with
        explanations :=
          s1.explanations ++ [⟨s1.nextId, explanation_text, newEmoji.id, 1⟩]
        nextId := s1.nextId + 1 }
      providerCalls := 1 }

/-- An HTTP response from the Explanation Provider: the status code and
the `explanation` field of the JSON body (`none` when the field is
absent). -/
structure ProviderResponse where
  statusCode : Nat
  explanation : Option String
deriving DecidableEq

/-- `fetch_explanation_from_groq` of explainEmoji_service.py:
`raise_for_status()` raises `HTTPStatusError` on a 4xx/5xx status, then
`result["explanation"]` raises `KeyError` when the JSON body has no
`explanation` field. -/
def fetch_explanation_from_groq (resp : ProviderResponse) : PyResult String :=
  if 400 ≤ resp.statusCode then .exn "HTTPStatusError"
  else
    match resp.explanation with
    | some t => .ok t
    | none => .exn "KeyError"

/- ===== receiveEmoji_service.py ===== -/

/-- Python `needle in hay` substring containment on strings. -/
def strIn (needle hay : String) : Bool :=
  needle == "" || 2 ≤ (hay.splitOn needle).length

/-- Python `unicodedata.lookup(name)`: returns the character with the
given Unicode name, raising `KeyError` when no character has that name.
`table` is the Unicode name table (there is no character named
"EMOJI"). -/
def unicodedata_lookup (table : String → Option String) (name : String) :
    PyResult String :=
  match table name with
  | some c => .ok c
  | none => .exn "KeyError"

/-- `is_emoji` of receiveEmoji_service.py:
`character in unicodedata.lookup("EMOJI")`. -/
def is_emoji (table : String → Option String) (character : String) :
    PyResult Bool :=
  match unicodedata_lookup table "EMOJI" with
  | .ok s => .ok (strIn character s)
  | .exn e => .exn e

/-- `fetch_emoji_explanation` of receiveEmoji_service.py: on a 200
status returns `response.json().get("explanation")` (Python `None`,
modelled `none`, when the field is absent); on any other status returns
the empty string. -/
def fetch_emoji_explanation (resp : ProviderResponse) : Option String :=
  if resp.statusCode == 200 then resp.explanation else some ""

/-- Response model `EmojiResponseModel` of receiveEmoji_service.py. -/
structure EmojiResponseModel where
  is_valid : Bool
  message : String
deriving DecidableEq

/-- Python truthiness of `fetch_emoji_explanation`'s result: `None` and
the empty string are falsy. -/
def strTruthy : Option String → Bool
  | some t => t != ""
  | none => false

/-- `receiveEmoji` of receiveEmoji_service.py.  An empty `emoji` is
falsy, so `is_emoji` is not reached; otherwise an exception from
`is_emoji` propagates. -/
def receiveEmoji (table : String → Option String) (resp : ProviderResponse)
    (emoji : String) : PyResult EmojiResponseModel :=
  if emoji == "" then .ok ⟨false, emoji ++ " is not a valid emoji."⟩
  else
    match is_emoji table emoji with
    | .exn e => .exn e
    | .ok b =>
      if !b then .ok ⟨false, emoji ++ " is not a valid emoji."⟩
      else
        match fetch_emoji_explanation resp with
        | some t =>
          if t != "" then .ok ⟨true, t⟩
          else .ok ⟨false, "Failed to fetch explanation for the submitted emoji."⟩
        | none =>
          .ok ⟨false, "Failed to fetch explanation for the submitted emoji."⟩

/- ===== loginUser_service.py ===== -/

/-- Outcome of `loginUser`: the two `ValueError` branches, mapped to
the spec's error taxonomy, or success carrying the returned session
token. -/
inductive LoginOutcome where
  | notFound
  | invalidCredential
  | success (session_token : String)
deriving DecidableEq

/-- `loginUser` of loginUser_service.py.  `now` is `datetime.now()` in
seconds and `freshToken` the `str(uuid.uuid4())` value.  The user is
looked up with `find_unique(where=\x7b"email": username\x7d)`; the
password is compared against the hardcoded string; on success one
Session row is created expiring `timedelta(days=1)` = 86400 seconds
later, and the token is returned without being stored. -/
def loginUser (s : Store) (now : Int) (freshToken : String)
    (username password : String) : LoginOutcome × Store :=
  match find_user_by_email s username with
  | none => (.notFound, s)
  | some user =>
    if password != "securepassword" then (.invalidCredential, s)
    else
      (.success freshToken,
       { s with
         sessions := s.sessions ++ [⟨s.nextId, user.id, now + 86400⟩]
         nextId := s.nextId + 1 })

/- ===== logoutUser_service.py ===== -/

/-- Response model `LogoutResponse` of logoutUser_service.py. -/
structure LogoutResponse where
  message : String
deriving DecidableEq

/-- `logoutUser` of logoutUser_service.py: parses the token with
`int(token)`, looks the Session up by id, rejects a missing or already
expired Session, and otherwise updates its `expiresAt` to
`datetime.now()`. -/
def logoutUser (s : Store) (now : Int) (token : String) :
    LogoutResponse × Store :=
  match pyInt token with
  | none => (⟨"Invalid session token."⟩, s)
  | some session_id =>
    match find_session s session_id with
    | none => (⟨"No active session found for the given token."⟩, s)
    | some session =>
      if session.expiresAt < now then
        (⟨"prisma.models.Session already expired."⟩, s)
      else
        (⟨"User successfully logged out."⟩,
         { s with
           sessions := s.sessions.map (fun x =>
             if x.id == session.id then { x with expiresAt := now } else x) })

/- ===== verifySession_service.py ===== -/

/-- Response model `SessionVerifyResponse` of verifySession_service.py:
the pydantic model declares `is_valid: bool` and `user_role: Role`,
both required. -/
structure SessionVerifyResponse where
  is_valid : Bool
  user_role : Role
deriving DecidableEq

/-- pydantic construction of `SessionVerifyResponse`: the `user_role`
field is declared with the required type `Role`, so passing Python
`None` for it raises a `ValidationError`. -/
def mkSessionVerifyResponse (is_valid : Bool) (user_role : Option Role) :
    PyResult SessionVerifyResponse :=
  match user_role with
  | some r => .ok ⟨is_valid, r⟩
  | none => .exn "ValidationError"

/-- `verifySession` of verifySession_service.py: `int(session_token)`
raises an uncaught `ValueError` on a non-numeric token; a Session whose
`expiresAt >= now` is valid and the owning User's role is returned
(`user.role` on a missing user raises `AttributeError`); both `return`
statements construct the pydantic response model, the invalid branch
passing `user_role=None`. -/
def verifySession (s : Store) (now : Int) (session_token : String) :
    PyResult SessionVerifyResponse :=
  match pyInt session_token with
  | none => .exn "ValueError"
  | some sid =>
    match find_session s sid with
    | some session =>
      if now ≤ session.expiresAt then
        match find_user_by_id s session.userId with
        | some user => mkSessionVerifyResponse true (some user.role)
        | none => .exn "AttributeError"
      else mkSessionVerifyResponse false none
    | none => mkSessionVerifyResponse false none

/- ===== registerUser_service.py ===== -/

/-- Response model `UserRegistrationResponse` of
registerUser_service.py. -/
structure UserRegistrationResponse where
  message : String
  user_id : Option Nat
  error : Option String
deriving DecidableEq

/-- `registerUser` of registerUser_service.py: Conflict when a User
with the email exists, otherwise one User row is created with the role
defaulted to USER. -/
def registerUser (s : Store) (username password email : String)
    (role : Option Role) : UserRegistrationResponse × Store :=
  match find_user_by_email s email with
  | some _ =>
    (⟨"Registration failed: Email already in use.", none,
      some "A user with this email already exists."⟩, s)
  | none =>
    let final_role := role.getD .USER
    (⟨"User registered successfully.", some s.nextId, none⟩,
     { s with
       users := s.users ++ [⟨s.nextId, username, password, email, final_role⟩]
       nextId := s.nextId + 1 })

/- ===== updateServerResources_service.py ===== -/

/-- Response model `ServerResourceUpdateResponse` of
updateServerResources_service.py; the Python floats are modelled as
rationals. -/
structure ServerResourceUpdateResponse where
  cpu_updated_allocation : ℚ
  ram_updated_allocation : ℚ
  disk_space_updated_allocation : ℚ
  message : String
deriving DecidableEq

/-- `updateServerResources` of updateServerResources_service.py: adds
the increments to the constants 100, 40 and 200; no state is read or
written. -/
def updateServerResources (cpu_allocation_increment ram_allocation_increment
    disk_space_allocation_increment : ℚ) : ServerResourceUpdateResponse :=
  let current_cpu : ℚ := 100
  let current_ram : ℚ := 40
  let current_disk : ℚ := 200
  { cpu_updated_allocation := current_cpu + cpu_allocation_increment
    ram_updated_allocation := current_ram + ram_allocation_increment
    disk_space_updated_allocation := current_disk + disk_space_allocation_increment
    message := "Server resources successfully updated." }

/- ===== relations used by the hyperproperty claims ===== -/

/-- Two User rows that agree on every field except possibly the
password. -/
def UsersAgreeExceptPassword (u v : User) : Prop :=
  u.id = v.id ∧ u.username = v.username ∧ u.email = v.email ∧ u.role = v.role

/-- Two stores that differ only in the password fields of their User
rows. -/
def StoresAgreeExceptPasswords (s1 s2 : Store) : Prop :=
  s1.emojis = s2.emojis ∧ s1.explanations = s2.explanations ∧
  s1.sessions = s2.sessions ∧ s1.nextId = s2.nextId ∧
  List.Forall₂ UsersAgreeExceptPassword s1.users s2.users

/- ===== concrete fixtures ===== -/

/-- A store holding one Emoji with one stored Explanation. -/
def store1 : Store :=
  ⟨[⟨0, "🙂"⟩], [⟨1, "slightly smiling face", 0, 1⟩], [], [], 2⟩

/-- A store holding one User (username "alice", email "a@x.com"). -/
def storeU : Store :=
  ⟨[], [], [⟨0, "alice", "pw-alice", "a@x.com", .USER⟩], [], 1⟩

/-- The store `storeU` with the user's password changed. -/
def storeU2 : Store :=
  ⟨[], [], [⟨0, "alice", "different-pw", "a@x.com", .USER⟩], [], 1⟩

/-- A store holding one User and one Session (id 1, expiring at 100). -/
def storeS : Store :=
  ⟨[], [], [⟨0, "alice", "pw", "a@x.com", .USER⟩], [⟨1, 0, 100⟩], 2⟩

/- ===== theorems ===== -/

/-- Claim C1: for an emoji whose Emoji record exists in the store with
at least one Explanation, `explainEmoji` returns the first
explanation's content verbatim, performs no Provider call, and leaves
the store unchanged. -/
theorem explainEmoji_cache_hit (provider : String → String) (s : Store)
    (emoji : String) (r : Emoji) (e : Explanation) (rest : List Explanation)
    (h1 : findEmoji s emoji = some r)
    (h2 : explanationsOf s r.id = e :: rest) :
    explainEmoji provider s emoji =
      { response := ⟨emoji, e.content⟩, store := s, providerCalls := 0 } := by
  unfold explainEmoji
  simp only [h1, h2]

/-- Witness for C1 on a concrete store. -/
theorem explainEmoji_cache_hit_witness :
    explainEmoji (fun _ => "provider text") store1 "🙂" =
      { response := ⟨"🙂", "slightly smiling face"⟩, store := store1,
        providerCalls := 0 } :=
  explainEmoji_cache_hit (fun _ => "provider text") store1 "🙂"
    ⟨0, "🙂"⟩ ⟨1, "slightly smiling face", 0, 1⟩ [] rfl rfl

/-- Claim C2: for an emoji with no Emoji record in the store,
`explainEmoji` calls the Provider exactly once, creates one Emoji row
for the symbol and one Explanation row carrying the provider text and
referencing the new Emoji row, and returns the provider text. -/
theorem explainEmoji_cache_miss (provider : String → String) (s : Store)
    (emoji : String) (h : findEmoji s emoji = none) :
    explainEmoji provider s emoji =
      { response := ⟨emoji, provider emoji⟩
        store := { s with
          emojis := s.emojis ++ [⟨s.nextId, emoji⟩]
          explanations :=
            s.explanations ++ [⟨s.nextId + 1, provider emoji, s.nextId, 1⟩]
          nextId := s.nextId + 2 }
        providerCalls := 1 } := by
  unfold explainEmoji
  rw [h]

/-- Witness for C2 on the empty store. -/
theorem explainEmoji_cache_miss_witness :
    explainEmoji (fun _ => "provider text") ⟨[], [], [], [], 0⟩ "🙂" =
      { response := ⟨"🙂", "provider text"⟩
        store := ⟨[⟨0, "🙂"⟩], [⟨1, "provider text", 0, 1⟩], [], [], 2⟩
        providerCalls := 1 } :=
  explainEmoji_cache_miss (fun _ => "provider text") ⟨[], [], [], [], 0⟩ "🙂" rfl

/-- Claim C3 (code defect): a 200 Provider response whose JSON body
lacks the `explanation` field makes `fetch_explanation_from_groq`
raise `KeyError` (so `explainEmoji` crashes instead of signalling a
distinct no-explanation outcome), while `fetch_emoji_explanation` in
the receiveEmoji path returns Python `None` for the same response. -/
theorem fetch_explanation_missing_field_raises :
    fetch_explanation_from_groq ⟨200, none⟩ = .exn "KeyError" ∧
    fetch_emoji_explanation ⟨200, none⟩ = none := ⟨rfl, rfl⟩

/-- Claim C4, counterexample: a User whose `username` field equals the
given username exists in the store, and the password is the hardcoded
secret, yet `loginUser` fails with NotFound — the lookup uses the
`email` field, not `username`. -/
theorem loginUser_username_counterexample :
    storeU.users.any (fun u => u.username == "alice") = true ∧
    (loginUser storeU 0 "tok" "alice" "securepassword").1 =
      LoginOutcome.notFound := ⟨rfl, rfl⟩

/-- Claim C4 as amended: `loginUser` looks the user up by the `email`
field using the username argument; it fails with NotFound when no
User's email equals that argument, fails with InvalidCredential when a
match exists but the password differs from the hardcoded secret, and on
success creates exactly one Session expiring 24 hours (86400 s) after
the call time and returns the fresh random token. -/
theorem loginUser_by_email_spec (s : Store) (now : Int)
    (freshToken username password : String) :
    (find_user_by_email s username = none →
      loginUser s now freshToken username password = (.notFound, s)) ∧
    (∀ user, find_user_by_email s username = some user →
      password ≠ "securepassword" →
      loginUser s now freshToken username password = (.invalidCredential, s)) ∧
    (∀ user, find_user_by_email s username = some user →
      password = "securepassword" →
      loginUser s now freshToken username password =
        (.success freshToken,
         { s with
           sessions := s.sessions ++ [⟨s.nextId, user.id, now + 86400⟩]
           nextId := s.nextId + 1 })) := by
  refine ⟨fun h => ?_, fun user h hpw => ?_, fun user h hpw => ?_⟩
  · unfold loginUser; rw [h]
  · unfold loginUser; rw [h]
    simp only [bne_iff_ne, ne_eq, hpw, not_false_eq_true, if_true]
  · subst hpw
    unfold loginUser; rw [h]
    simp only [bne_self_eq_false, Bool.false_eq_true, if_false]

/-- Witness for the amended C4 on a concrete store. -/
theorem loginUser_by_email_spec_witness :
    loginUser storeU 0 "tok" "a@x.com" "securepassword" =
      (.success "tok", ⟨[], [], [⟨0, "alice", "pw-alice", "a@x.com", .USER⟩],
        [⟨1, 0, 86400⟩], 2⟩) := by
  rw [(loginUser_by_email_spec storeU 0 "tok" "a@x.com" "securepassword").2.2
    ⟨0, "alice", "pw-alice", "a@x.com", .USER⟩ rfl rfl]
  rfl

/-- Claim C5: `logoutUser` fails with InvalidInput when the token does
not parse as an integer, with NotFound when no Session has the parsed
id, and with AlreadyExpired when the matched Session's expiry is
before the call time — leaving the store unchanged in all three cases —
and otherwise sets the matched Session's `expiresAt` to the current
instant. -/
theorem logoutUser_spec (s : Store) (now : Int) (token : String) :
    (pyInt token = none →
      logoutUser s now token = (⟨"Invalid session token."⟩, s)) ∧
    (∀ sid, pyInt token = some sid → find_session s sid = none →
      logoutUser s now token =
        (⟨"No active session found for the given token."⟩, s)) ∧
    (∀ sid session, pyInt token = some sid → find_session s sid = some session →
      session.expiresAt < now →
      logoutUser s now token = (⟨"prisma.models.Session already expired."⟩, s)) ∧
    (∀ sid session, pyInt token = some sid → find_session s sid = some session →
      ¬ session.expiresAt < now →
      logoutUser s now token =
        (⟨"User successfully logged out."⟩,
         { s with sessions := s.sessions.map (fun x =>
             if x.id == session.id then { x with expiresAt := now } else x) })) := by
  refine ⟨fun h => ?_, fun sid h hs => ?_, fun sid session h hs hexp => ?_,
    fun sid session h hs hexp => ?_⟩
  · unfold logoutUser; rw [h]
  · unfold logoutUser; simp only [h, hs]
  · unfold logoutUser; simp only [h, hs, if_pos hexp]
  · unfold logoutUser; simp only [h, hs, if_neg hexp]

/-- Witness for C5: a live session is logged out and its expiry set to
the call time. -/
theorem logoutUser_spec_witness :
    logoutUser storeS 50 "1" =
      (⟨"User successfully logged out."⟩,
       ⟨[], [], [⟨0, "alice", "pw", "a@x.com", .USER⟩], [⟨1, 0, 50⟩], 2⟩) := by
  have h := (logoutUser_spec storeS 50 "1").2.2.2 1 ⟨1, 0, 100⟩ rfl rfl (by decide)
  exact h

/-- Claim C6 (code defect): on the invalid branch `verifySession`
executes `SessionVerifyResponse(is_valid=False, user_role=None)`, and
since the pydantic model requires `user_role: Role` this raises a
`ValidationError` instead of returning `is_valid = false` — shown here
for a numeric token with no matching Session and for one whose match
has already expired — while the valid branch does return
`is_valid = true` with the owning User's role. -/
theorem verifySession_missing_role_raises :
    verifySession ⟨[], [], [], [], 0⟩ 50 "1" = .exn "ValidationError" ∧
    verifySession storeS 200 "1" = .exn "ValidationError" ∧
    verifySession storeS 50 "1" = .ok ⟨true, .USER⟩ := ⟨rfl, rfl, rfl⟩

/-- Claim C7: `registerUser` fails with Conflict and leaves the store
unchanged when a User with the email exists, and otherwise creates
exactly one User whose role defaults to USER when unspecified. -/
theorem registerUser_spec (s : Store) (username password email : String)
    (role : Option Role) :
    (∀ u, find_user_by_email s email = some u →
      registerUser s username password email role =
        (⟨"Registration failed: Email already in use.", none,
          some "A user with this email already exists."⟩, s)) ∧
    (find_user_by_email s email = none →
      registerUser s username password email role =
        (⟨"User registered successfully.", some s.nextId, none⟩,
         { s with
           users := s.users ++
             [⟨s.nextId, username, password, email, role.getD .USER⟩]
           nextId := s.nextId + 1 })) := by
  refine ⟨fun u h => ?_, fun h => ?_⟩
  · unfold registerUser; rw [h]
  · unfold registerUser; rw [h]

/-- Witness for C7: registering a second user with an already-present
email is rejected and the store is unchanged. -/
theorem registerUser_spec_witness :
    registerUser storeU "bob" "pw-bob" "a@x.com" none =
      (⟨"Registration failed: Email already in use.", none,
        some "A user with this email already exists."⟩, storeU) :=
  (registerUser_spec storeU "bob" "pw-bob" "a@x.com" none).1
    ⟨0, "alice", "pw-alice", "a@x.com", .USER⟩ rfl

/-- Claim C8 (code defect): `is_emoji` evaluates
`unicodedata.lookup("EMOJI")`, and since no Unicode character is named
"EMOJI" the lookup raises `KeyError` for every input character instead
of returning a boolean. -/
theorem is_emoji_always_raises (table : String → Option String)
    (h : table "EMOJI" = none) (character : String) :
    is_emoji table character = .exn "KeyError" := by
  unfold is_emoji unicodedata_lookup
  rw [h]

/-- Witness for C8 at a concrete character. -/
theorem is_emoji_always_raises_witness :
    is_emoji (fun _ => none) "🙂" = .exn "KeyError" :=
  is_emoji_always_raises (fun _ => none) rfl "🙂"

/-- Rows related by `UsersAgreeExceptPassword` have equal emails, so a
lookup by email misses in one list exactly when it misses in the
other. -/
theorem find_by_email_none_iff {l1 l2 : List User}
    (h : List.Forall₂ UsersAgreeExceptPassword l1 l2) (e : String) :
    (l1.find? (fun u => u.email == e) = none ↔
     l2.find? (fun u => u.email == e) = none) := by
  induction h with
  | nil => simp
  | @cons a b t1 t2 hab htl ih =>
    obtain ⟨-, -, he, -⟩ := hab
    simp only [List.find?_cons, he]
    cases hb : (b.email == e) <;> simp [hb, ih]

/-- Claim C9: two stores that differ only in the stored password
fields of their Users give `loginUser` the same outcome for every
username and password input — authentication never reads the stored
password. -/
theorem loginUser_ignores_stored_passwords (s1 s2 : Store)
    (h : StoresAgreeExceptPasswords s1 s2) (now : Int)
    (freshToken username password : String) :
    (loginUser s1 now freshToken username password).1 =
    (loginUser s2 now freshToken username password).1 := by
  obtain ⟨-, -, -, -, hu⟩ := h
  have hiff := find_by_email_none_iff hu username
  unfold loginUser find_user_by_email
  rcases h1 : s1.users.find? (fun u => u.email == username) with _ | u1
  · rw [h1, hiff.mp h1]
  · rcases h2 : s2.users.find? (fun u => u.email == username) with _ | u2
    · exact absurd h1 (by simp [hiff.mpr h2])
    · rw [h1, h2]
      cases hpw : password != "securepassword" <;> simp [hpw]

/-- Witness for C9 on two concrete stores differing only in the
user's password. -/
theorem loginUser_ignores_stored_passwords_witness :
    (loginUser storeU 0 "tok" "a@x.com" "guess").1 =
    (loginUser storeU2 0 "tok" "a@x.com" "guess").1 :=
  loginUser_ignores_stored_passwords storeU storeU2
    ⟨rfl, rfl, rfl, rfl,
      List.Forall₂.cons ⟨rfl, rfl, rfl, rfl⟩ List.Forall₂.nil⟩
    0 "tok" "a@x.com" "guess"

/-- Claim C10: `updateServerResources` is a pure function of its three
increments — it reports exactly 100 + cpu, 40 + ram and 200 + disk,
touching no state, so repeated calls with the same arguments return
identical results and adjustments never accumulate. -/
theorem updateServerResources_formula
    (cpu ram disk : ℚ) :
    updateServerResources cpu ram disk =
      { cpu_updated_allocation := 100 + cpu
        ram_updated_allocation := 40 + ram
        disk_space_updated_allocation := 200 + disk
        message := "Server resources successfully updated." } := rfl

end EmojiExplainer
